import Mathlib

/-!
# Formal model of the Trilobot obstacle-avoidance scripts

A shallow embedding of the decision core of the Trilobot repository
(`Trilobot_v072.py`, `Trilobot.py`, `Trilobot_v060.py`, `utility_functions.py`).

Conventions:
* Python floats are modelled as rationals (`ℚ`); the distances produced by
  `int(np.average(...))` and the frame cells are integers (`Int`).
* Fallible Python code is modelled with `Except`; a Python `ValueError`
  raised by the bounds check of `np_extract` is `ExtractErr.outOfBounds`,
  and an `IndexError` raised by an out-of-range list subscript is
  `ExtractErr.indexError`.
* Side effects (motor commands, underlight blinks, collision re-polls) are
  modelled as event traces (`List Ev`).
-/

namespace Trilobot

/-! ## Configuration constants

From `Trilobot_v072.py` lines 42-63, `Trilobot.py` lines 21-30 and
`Trilobot_v060.py` lines 24-40. -/

/-- `Trilobot_v072.py` line 42. -/
def COLLISION_THRESHOLD_MM : ℚ := 200

/-- `Trilobot_v072.py` line 54. -/
def TURN_SPEED : ℚ := 0.45

/-- `Trilobot_v072.py` line 57 (`TURN_TOLERANCE_MM = 1.0`). -/
def TURN_TOLERANCE_MM : ℚ := 1

/-- `Trilobot_v072.py` line 58. -/
def LEFT : Int := 1

/-- `Trilobot_v072.py` line 59. -/
def RIGHT : Int := 2

/-- `Trilobot_v072.py` line 62. -/
def DEFAULT_BACKUP_LOOPS : Nat := 5

/-- `Trilobot_v072.py` line 357: the drive system is shipped switched off
(`DRIVE_ON = False`). -/
def DRIVE_ON : Bool := false

/-- `Trilobot.py` line 21 (ultrasonic variant, centimeters). -/
def COLLISION_THRESHOLD_CM : ℚ := 18

/-- `Trilobot_v060.py` line 24. -/
def v060_COLLISION_THRESHOLD_CM : ℚ := 22

/-- `Trilobot_v060.py` line 34. -/
def v060_TURN_SPEED : ℚ := 0.65

/-- `Trilobot_v060.py` line 36. -/
def v060_TURN_RIGHT_PERCENT : ℚ := 65

/-- `Trilobot_v060.py` line 39. -/
def BACKUP_LOOPS : Nat := 5

/-! ## Turn decision (`Trilobot_v072.py` lines 393-423)

The reaction loop draws `percent = round(random() * 100.0, 2)` and then runs
the `if`/`elif` chain of lines 411-423.  The final arm of the chain (line
422-423, written `else; backup()` in the source, an obvious slip for
`else: backup()`) is embedded as the `Backup` action; the proofs show it is
unreachable because `percent < 50.0` and `percent >= 50.0` are exhaustive. -/

inductive ReactAction where
  | TurnRight
  | TurnLeft
  | Backup
deriving DecidableEq, Repr

/-- The turn-decision chain of `Trilobot_v072.py` lines 411-423:
`if right_distance_mm >= left_distance_mm + TURN_TOLERANCE_MM: turn_right()`,
`elif left_distance_mm >= right_distance_mm + TURN_TOLERANCE_MM: turn_left()`,
`elif percent < 50.0: turn_right()`, `elif percent >= 50.0: turn_left()`,
`else: backup()`. -/
def turn_decision (left right tolerance percent : ℚ) : ReactAction :=
  if right ≥ left + tolerance then ReactAction.TurnRight
  else if left ≥ right + tolerance then ReactAction.TurnLeft
  else if percent < 50 then ReactAction.TurnRight
  else if percent ≥ 50 then ReactAction.TurnLeft
  else ReactAction.Backup

/-- The four-rule decision policy exactly as the specification words it
(first matching rule wins): (1) `right ≥ left + tolerance` gives TurnRight;
(2) `left ≥ right + tolerance` gives TurnLeft; (3) `random < 50` gives
TurnRight; (4) otherwise TurnLeft.  Stated from the spec, to be compared
with `turn_decision`, which is stated from the source. -/
def spec_turn_decision (left right tolerance percent : ℚ) : ReactAction :=
  if right ≥ left + tolerance then ReactAction.TurnRight
  else if left ≥ right + tolerance then ReactAction.TurnLeft
  else if percent < 50 then ReactAction.TurnRight
  else ReactAction.TurnLeft

/-! ## Collision detectors -/

/-- `Trilobot_v072.py` lines 281-290: `result = False`;
`if fwd_mm <= threshold: result = True`; `return result`. -/
def check_for_collision (fwd_mm threshold : ℚ) : Bool :=
  if fwd_mm ≤ threshold then true else false

/-- The collision flag of the ultrasonic variants: `Trilobot.py` lines
118-119, `Trilobot_v060.py` lines 133-134 and `utility_functions.py` lines
121-122 all set `collision = True` only when
`distance_average_cm < collision_threshold_cm` (strict comparison). -/
def ultrasonic_collision (distance_average_cm collision_threshold_cm : ℚ) : Bool :=
  if distance_average_cm < collision_threshold_cm then true else false

/-! ## Keyboard-interrupt handler (`Trilobot_v072.py` lines 435-436,
`Trilobot.py` lines 196-197, `Trilobot_v060.py` lines 211-212)

The whole control loop runs inside a `try:` block; an operator interrupt
received at any point transfers control to the `except KeyboardInterrupt:`
handler, whose only actuator command is `trilobot.set_motor_speeds(0.0, 0.0)`
(unconditional, not guarded by `DRIVE_ON`).  A run that is cancelled is
therefore the trace of motor commands issued so far, followed by the
handler's commands. -/

/-- A motor command `set_motor_speeds(left, right)`. -/
abbrev MotorCmd := ℚ × ℚ

/-- The motor commands issued by the `except KeyboardInterrupt:` handler:
exactly one, `set_motor_speeds(0.0, 0.0)`. -/
def keyboard_interrupt_commands : List MotorCmd := [(0, 0)]

/-- A cancelled run: the loop had issued `loop_commands` when the interrupt
arrived; the handler then runs and the process terminates. -/
def run_with_cancellation (loop_commands : List MotorCmd) : List MotorCmd :=
  loop_commands ++ keyboard_interrupt_commands

/-! ## Zone extraction (`np_extract`, `Trilobot_v072.py` lines 181-233)

A frame is a list of rows of integer millimeter distances.  For the 8x8
frames of the claims the `isinstance` check and the one-dimensional
`TypeError` fallback of lines 185-194 never fire, so the embedding covers
the two-dimensional path: `_nr_rows = len(arr)`, `_nr_cols = len(arr[0])`,
the `valid` test of line 205, the double extraction loop of lines 214-225,
and the `ValueError` of line 231.  A subscript `arr[r]` or `arr[r][c]`
beyond the end of the list raises a Python `IndexError`, embedded as
`ExtractErr.indexError`.  (Within the `valid` branch every index is
non-negative, so Python's negative-index wrap-around cannot occur there.) -/

inductive ExtractErr where
  /-- the `ValueError("(np_extract) Array boundaries are out of range!")`
  of line 231 -/
  | outOfBounds
  /-- a Python `IndexError` from an out-of-range list subscript -/
  | indexError
deriving DecidableEq, Repr

/-- Python's `range(lo, hi + 1, 1)`: the integers from `lo` to `hi`
inclusive, in order; empty when `hi < lo`. -/
def intRange (lo hi : Int) : List Int :=
  (List.range (hi + 1 - lo).toNat).map (fun i : Nat => lo + (i : Int))

/-- Run `f` over a list left to right, collecting results in order and
stopping at the first error — the effect of a Python `for` loop that
appends to an accumulator and may raise. -/
def exceptSeq {ε α β : Type} (f : α → Except ε β) : List α → Except ε (List β)
  | [] => Except.ok []
  | x :: xs =>
    match f x with
    | Except.error e => Except.error e
    | Except.ok y =>
      match exceptSeq f xs with
      | Except.error e => Except.error e
      | Except.ok ys => Except.ok (y :: ys)

/-- The subscript `arr[r][c]` of line 223 for non-negative `r`, `c`:
either the cell, or an `IndexError`. -/
def getCellE (arr : List (List Int)) (r c : Int) : Except ExtractErr Int :=
  match arr[r.toNat]? with
  | none => Except.error ExtractErr.indexError
  | some row =>
    match row[c.toNat]? with
    | none => Except.error ExtractErr.indexError
    | some v => Except.ok v

/-- `np_extract(arr, start_row, start_col, end_row, end_col)`,
`Trilobot_v072.py` lines 181-233.  The `valid` test is the exact
conjunction of line 205 — note it compares against `_nr_rows`/`_nr_cols`
themselves (not `_nr_rows - 1`) and never compares `start` with `end`. -/
def np_extract (arr : List (List Int))
    (start_row start_col end_row end_col : Int) :
    Except ExtractErr (List (List Int)) :=
  -- `_nr_rows = len(arr)`, `_nr_cols = len(arr[0])` (lines 188-191)
  if 0 ≤ start_row ∧ 0 ≤ start_col ∧
     start_row ≤ (arr.length : Int) ∧ start_col ≤ (arr.headI.length : Int) ∧
     0 ≤ end_row ∧ 0 ≤ end_col ∧
     end_row ≤ (arr.length : Int) ∧ end_col ≤ (arr.headI.length : Int) then
    exceptSeq
      (fun r => exceptSeq (fun c => getCellE arr r c) (intRange start_col end_col))
      (intRange start_row end_row)
  else
    Except.error ExtractErr.outOfBounds

/-- Total cell accessor used to describe `np_extract`'s output: the frame
cell at row `r`, column `c` (defaulting to `0` outside the frame, a case
the in-bounds theorem never exercises). -/
def cell (arr : List (List Int)) (r c : Int) : Int :=
  (arr.getD r.toNat []).getD c.toNat 0

/-- The rectangular sub-grid selected by inclusive bounds, row-major. -/
def subgrid (arr : List (List Int)) (sr sc er ec : Int) : List (List Int) :=
  (intRange sr er).map (fun r => (intRange sc ec).map (fun c => cell arr r c))

/-- The all-zero 8x8 frame, a concrete `DistanceFrame` for counterexamples. -/
def zeroFrame8 : List (List Int) := List.replicate 8 (List.replicate 8 0)

/-- A concrete 8x8 frame with pairwise distinct cells `10*r + c`. -/
def testFrame8 : List (List Int) :=
  (List.range 8).map (fun r => (List.range 8).map (fun c => (10 * (r : Int) + (c : Int))))

/-! ## Zone averaging (`np_average_distances`, `Trilobot_v072.py` lines
251-271)

Each zone average is `int(np.average(_mm))`: `np.average` of a nested list
is the arithmetic mean of all its cells as a float, and Python's `int()`
truncates a float toward zero. -/

/-- `np.average(mm)`: the sum of all cells divided by their number. -/
def np_average (mm : List (List Int)) : ℚ :=
  ((mm.flatten.sum : Int) : ℚ) / (mm.flatten.length : ℚ)

/-- Python `int()` on a (rational-modelled) float: truncation toward zero.
For `q = num/den` with `den > 0` this is the t-division of the numerator by
the denominator. -/
def int_trunc (q : ℚ) : Int := Int.tdiv q.num (q.den : Int)

/-- `int(np.average(mm))`, the integer zone average of lines 253, 262, 271. -/
def np_average_int (mm : List (List Int)) : Int := int_trunc (np_average mm)

/-! ## Bounded sensor retry (`distance_reading_cm`, `Trilobot.py` lines
89-121; identical in `Trilobot_v060.py` lines 104-136 and
`utility_functions.py` lines 74-124)

The inner retry loop is `while distance < 0.0 and counter < 10:` with
`distance = trilobot.read_distance(...)`, `counter += 1`, and on
`counter >= 10` it executes `blink_underlighting(trilobot,
[LEFT_LIGHTS, RIGHT_LIGHTS], RED, 10)` and then `raise ValueError(emsg)`.
All three files define a function named `blink_underlights`; none defines
`blink_underlighting`, so Python raises a `NameError` at that call before
any light is lit and before the `ValueError` is reached.  Name resolution
is embedded explicitly so the misspelling is visible in the model. -/

/-- Global function names relevant to the failure-indication call. -/
inductive FnName where
  /-- the helper actually defined at module level (`Trilobot.py` line 63) -/
  | blink_underlights
  /-- the name written at the call site (`Trilobot.py` line 108) -/
  | blink_underlighting
deriving DecidableEq, Repr

/-- The module-level function definitions each script actually contains. -/
def defined_functions : List FnName := [FnName.blink_underlights]

/-- Underlighting side effects observable in the retry loop. -/
inductive LightEvent where
  /-- red blink of both light groups, 10 cycles: the intended effect of
  `blink_underlighting(trilobot, [LEFT_LIGHTS, RIGHT_LIGHTS], RED, 10)` -/
  | blinkRedBothGroups
deriving DecidableEq, Repr

/-- Python exceptions that can escape the retry loop. -/
inductive PyErr where
  /-- `NameError`: an undefined global was called -/
  | nameError
  /-- the `ValueError("Unable to get a valid distance reading!")` -/
  | valueError
deriving DecidableEq, Repr

/-- Calling a global by name: Python resolves the name first; if it is not
defined, a `NameError` is raised and the callee's effects never happen. -/
def call_blink (name : FnName) : List LightEvent × Option PyErr :=
  if name ∈ defined_functions then ([LightEvent.blinkRedBothGroups], none)
  else ([], some PyErr.nameError)

/-- One execution of the inner retry loop (`Trilobot.py` lines 101-109).
`readings n` is the value returned by the `n`-th `read_distance` call.
`left` is a structural-termination token, always called with
`left = 10 - counter`: when `left = 0` the guard `counter < 10` is false
and the loop exits returning `distance`, which is exactly what the `0`
case does. -/
def retry_go (readings : Nat → ℚ) (distance : ℚ) (counter : Nat) :
    Nat → List LightEvent × Except PyErr ℚ
  | 0 => ([], Except.ok distance)
  | left + 1 =>
    if distance < 0 ∧ counter < 10 then
      let d := readings counter
      let c := counter + 1
      if c ≥ 10 then
        match call_blink FnName.blink_underlighting with
        | (evts, some e) => (evts, Except.error e)
        | (evts, none) => (evts, Except.error PyErr.valueError)
      else
        retry_go readings d c left
    else
      ([], Except.ok distance)

/-- The inner retry loop as entered at `Trilobot.py` lines 98-99:
`counter = 0`, `distance = -1.0`. -/
def inner_retry (readings : Nat → ℚ) : List LightEvent × Except PyErr ℚ :=
  retry_go readings (-1) 0 10

/-! ## Reaction traces (`Trilobot_v072.py` lines 292-320 and 393-428;
`Trilobot_v060.py` lines 168-204)

Observable events of one reaction iteration, in program order. -/

inductive Ev where
  /-- `blink_underlights(trilobot, REAR_LIGHTS, YELLOW)` -/
  | rearBlink
  /-- `blink_underlights(trilobot, LEFT_LIGHTS, BLUE)` inside `turn_left` -/
  | sideBlinkLeft
  /-- `blink_underlights(trilobot, RIGHT_LIGHTS, BLUE)` inside `turn_right` -/
  | sideBlinkRight
  /-- `trilobot.set_motor_speeds(l, r)` -/
  | motorCmd (l r : ℚ)
  /-- a re-poll of the frame followed by `check_for_collision`
  (`Trilobot_v072.py` lines 427-428) -/
  | collisionCheck
deriving DecidableEq, Repr

/-- `backup()` of `Trilobot_v072.py` lines 312-320: only `if DRIVE_ON:`
does it run `DEFAULT_BACKUP_LOOPS` iterations of a rear blink followed by
a reverse motor command. -/
def backup_trace (drive_on : Bool) : List Ev :=
  if drive_on then
    List.flatten (List.replicate DEFAULT_BACKUP_LOOPS
      [Ev.rearBlink, Ev.motorCmd (-TURN_SPEED) (-TURN_SPEED)])
  else []

/-- `turn_right()` of lines 302-310: side blink, then (if `DRIVE_ON`) the
turn motor command. -/
def turn_right_trace (drive_on : Bool) : List Ev :=
  Ev.sideBlinkRight :: (if drive_on then [Ev.motorCmd TURN_SPEED (-TURN_SPEED)] else [])

/-- `turn_left()` of lines 292-300. -/
def turn_left_trace (drive_on : Bool) : List Ev :=
  Ev.sideBlinkLeft :: (if drive_on then [Ev.motorCmd (-TURN_SPEED) TURN_SPEED] else [])

/-- One iteration of the `while collision:` reaction loop of
`Trilobot_v072.py` lines 393-428: `backup()`, then the turn-decision chain
dispatching to `turn_right()` / `turn_left()` / `backup()`, then (after the
turn-hold sleep) the re-poll and collision re-check of lines 427-428. -/
def react_iteration (drive_on : Bool) (left right percent : ℚ) : List Ev :=
  backup_trace drive_on ++
  (match turn_decision left right TURN_TOLERANCE_MM percent with
   | ReactAction.TurnRight => turn_right_trace drive_on
   | ReactAction.TurnLeft => turn_left_trace drive_on
   | ReactAction.Backup => backup_trace drive_on) ++
  [Ev.collisionCheck]

/-- The backup pulses of `Trilobot_v060.py` lines 174-177: unconditional
(`DRIVE_ON` does not exist in that variant), `BACKUP_LOOPS` iterations of a
rear blink followed by a reverse motor command. -/
def v060_backup_pulses : List Ev :=
  List.flatten (List.replicate BACKUP_LOOPS
    [Ev.rearBlink, Ev.motorCmd (-v060_TURN_SPEED) (-v060_TURN_SPEED)])

/-- The v060 reaction block, `Trilobot_v060.py` lines 168-204: the backup
pulses, then `percent = randint(1, 100)` and directly (no collision
re-check in between) the first turn of the `while collision:` loop, then
the re-poll of line 204. -/
def v060_react_trace (percent : ℚ) : List Ev :=
  v060_backup_pulses ++
  (if percent < v060_TURN_RIGHT_PERCENT then
    [Ev.sideBlinkRight, Ev.motorCmd v060_TURN_SPEED (-v060_TURN_SPEED)]
   else
    [Ev.sideBlinkLeft, Ev.motorCmd (-v060_TURN_SPEED) v060_TURN_SPEED]) ++
  [Ev.collisionCheck]

/-- A turn decision manifests as the side blink that both `turn_left` and
`turn_right` perform first (and the v060 inline turn code performs first). -/
def is_turn_event (e : Ev) : Bool :=
  match e with
  | Ev.sideBlinkLeft => true
  | Ev.sideBlinkRight => true
  | _ => false

/-- The events issued strictly before the first turn decision. -/
def before_first_turn (tr : List Ev) : List Ev :=
  tr.takeWhile (fun e => ! is_turn_event e)

/-- A reverse pulse of the v072 `backup()`:
`set_motor_speeds(-TURN_SPEED, -TURN_SPEED)`. -/
def is_reverse_cmd (e : Ev) : Bool :=
  match e with
  | Ev.motorCmd l r => decide (l = -TURN_SPEED ∧ r = -TURN_SPEED)
  | _ => false

/-- A reverse pulse of the v060 backup loop. -/
def v060_is_reverse_cmd (e : Ev) : Bool :=
  match e with
  | Ev.motorCmd l r => decide (l = -v060_TURN_SPEED ∧ r = -v060_TURN_SPEED)
  | _ => false

/-! ## Python scoping of `last_turn` (`Trilobot_v072.py` lines 292-310, 373)

The main line initializes the module global `last_turn = 0` (line 373).
`turn_left` (line 296) and `turn_right` (line 306) assign `last_turn`, but
neither contains a `global last_turn` declaration, so by Python scoping
each assignment binds a fresh function-local name that is discarded when
the function returns; the module global is never written again.  The model
records, for each function, the scope and value of every assignment it
performs to the name `last_turn`. -/

/-- The scope a Python assignment binds in. -/
inductive PyScope where
  /-- assignment to a function-local name (no `global` declaration) -/
  | localVar
  /-- assignment to the module global (requires a `global` declaration) -/
  | globalVar
deriving DecidableEq, Repr

/-- The assignments to the name `last_turn` performed by `turn_left`
(line 296: `last_turn = LEFT`, function-local). -/
def turn_left_writes : List (PyScope × Int) := [(PyScope.localVar, LEFT)]

/-- The assignments to the name `last_turn` performed by `turn_right`
(line 306: `last_turn = RIGHT`, function-local). -/
def turn_right_writes : List (PyScope × Int) := [(PyScope.localVar, RIGHT)]

/-- Effect of one recorded assignment on the module global: only a
global-scope write changes it. -/
def apply_write (g : Int) (w : PyScope × Int) : Int :=
  match w.1 with
  | PyScope.globalVar => w.2
  | PyScope.localVar => g

/-- The module global `last_turn` after the loop has run any sequence of
turn calls, starting from the initialization `last_turn = 0` of line 373. -/
def last_turn_after (calls : List (List (PyScope × Int))) : Int :=
  calls.foldl (fun g ws => ws.foldl apply_write g) 0

/-!
# Theorems
-/

/-- C1: for every pair of zone averages, tolerance, and random value in
`[0, 100)`, the turn decision of `Trilobot_v072.py` lines 411-423 is the
first matching rule of the four-rule policy (right-asymmetry, then
left-asymmetry, then `random < 50` turns right, else left); in particular
with both averages 50, tolerance 1, random 30 turns right and random 70
turns left. -/
theorem turn_decision_first_match (l r t p : ℚ) (h0 : 0 ≤ p) (h1 : p < 100) :
    turn_decision l r t p = spec_turn_decision l r t p ∧
    turn_decision 50 50 1 30 = ReactAction.TurnRight ∧
    turn_decision 50 50 1 70 = ReactAction.TurnLeft := by
  refine ⟨?_, by norm_num [turn_decision], by norm_num [turn_decision]⟩
  unfold turn_decision spec_turn_decision
  split_ifs with h2 h3 h4 h5 <;> first | rfl | linarith

/-- Witness for C1 at `l = 50`, `r = 50`, `t = 1`, `p = 30`. -/
theorem turn_decision_first_match_witness :
    (0 : ℚ) ≤ 30 ∧ (30 : ℚ) < 100 ∧
    (turn_decision 50 50 1 30 = spec_turn_decision 50 50 1 30 ∧
     turn_decision 50 50 1 30 = ReactAction.TurnRight ∧
     turn_decision 50 50 1 70 = ReactAction.TurnLeft) :=
  ⟨by norm_num, by norm_num,
    turn_decision_first_match 50 50 1 30 (by norm_num) (by norm_num)⟩

/-- C7 counterexample: with `left = 100`, `right = 50`, `tolerance = 1`,
the decision at random value `0` is not TurnRight (rule 2 fires:
`100 ≥ 50 + 1`, so the code turns left), refuting the claim that this
input yields TurnRight for every random value. -/
theorem asymmetry_claim_counterexample :
    turn_decision 100 50 1 0 ≠ ReactAction.TurnRight := by
  norm_num [turn_decision]
  exact fun hcontra => ReactAction.noConfusion hcontra

/-- C7 amended: `decide(left=100, right=50, tolerance=1, r)` returns
TurnLeft for every random value `r` in `[0, 100)` — the left-asymmetry
rule fires regardless of randomness. -/
theorem asymmetry_turns_left (p : ℚ) (h0 : 0 ≤ p) (h1 : p < 100) :
    turn_decision 100 50 1 p = ReactAction.TurnLeft := by
  norm_num [turn_decision]

/-- Witness for the amended C7 at `p = 7`. -/
theorem asymmetry_turns_left_witness :
    (0 : ℚ) ≤ 7 ∧ (7 : ℚ) < 100 ∧
    turn_decision 100 50 1 7 = ReactAction.TurnLeft :=
  ⟨by norm_num, by norm_num, asymmetry_turns_left 7 (by norm_num) (by norm_num)⟩

/-- C5 counterexample: the ultrasonic variant's collision flag at the
boundary `center_average = threshold` (with its configured threshold,
`COLLISION_THRESHOLD_CM = 18` in `Trilobot.py`) is `false`, because lines
118-119 use the strict comparison `<` — refuting the claim that every
variant yields `true` at the boundary. -/
theorem ultrasonic_boundary_counterexample :
    ultrasonic_collision COLLISION_THRESHOLD_CM COLLISION_THRESHOLD_CM = false := by
  simp [ultrasonic_collision]

/-- C5 amended: the depth-sensor variant's `check_for_collision` is true
iff `center ≤ threshold` (boundary true), while the ultrasonic variants
set the collision flag iff `average < threshold` strictly (boundary
false). -/
theorem collision_detectors_amended (c t : ℚ) :
    (check_for_collision c t = true ↔ c ≤ t) ∧
    (ultrasonic_collision c t = true ↔ c < t) := by
  constructor
  · unfold check_for_collision
    split_ifs with h <;> simp [h]
  · unfold ultrasonic_collision
    split_ifs with h <;> simp [h]

/-- C4: whatever motor commands the control loop had issued when the
operator interrupt arrived, the `except KeyboardInterrupt:` handler issues
`set_motor_speeds(0.0, 0.0)` as the final motor command of the process. -/
theorem cancellation_final_motor_zero (loop_commands : List MotorCmd) :
    (run_with_cancellation loop_commands).getLast? = some (0, 0) := by
  simp [run_with_cancellation, keyboard_interrupt_commands]

/-- C10: after any sequence of `turn_left` / `turn_right` calls, the
module global `last_turn` still holds its initial value `0`: both
functions assign the name only function-locally (no `global` declaration),
so no turn ever updates the persistent turn bias. -/
theorem last_turn_invariant (calls : List (List (PyScope × Int)))
    (h : ∀ ws ∈ calls, ws = turn_left_writes ∨ ws = turn_right_writes) :
    last_turn_after calls = 0 := by
  have key : ∀ (cs : List (List (PyScope × Int))),
      (∀ ws ∈ cs, ws = turn_left_writes ∨ ws = turn_right_writes) →
      ∀ g : Int, cs.foldl (fun g ws => ws.foldl apply_write g) g = g := by
    intro cs hcs
    induction cs with
    | nil => intro g; rfl
    | cons ws rest ih =>
      intro g
      have hrest : ∀ w ∈ rest, w = turn_left_writes ∨ w = turn_right_writes :=
        fun w hw => hcs w (List.mem_cons_of_mem _ hw)
      have hws := hcs ws (List.mem_cons_self ws rest)
      have hstep : ws.foldl apply_write g = g := by
        rcases hws with h1 | h1 <;> subst h1 <;> rfl
      calc (ws :: rest).foldl (fun g ws => ws.foldl apply_write g) g
          = rest.foldl (fun g ws => ws.foldl apply_write g) (ws.foldl apply_write g) := rfl
        _ = rest.foldl (fun g ws => ws.foldl apply_write g) g := by rw [hstep]
        _ = g := ih hrest g
  exact key calls h 0

/-- Witness for C10 on the concrete call sequence left, right, left. -/
theorem last_turn_invariant_witness :
    (∀ ws ∈ [turn_left_writes, turn_right_writes, turn_left_writes],
      ws = turn_left_writes ∨ ws = turn_right_writes) ∧
    last_turn_after [turn_left_writes, turn_right_writes, turn_left_writes] = 0 :=
  ⟨by decide, last_turn_invariant _ (by decide)⟩

/-- C2 (evaluation of the buggy behavior): on the all-zero 8x8 frame the
bounds request `(8, 0, 8, 0)` — coordinate `8 > 7` — passes the `valid`
test of line 205 (which compares with `_nr_rows = 8` itself, an off-by-one)
and then crashes with an `IndexError` at `arr[8]`, not with the OutOfBounds
`ValueError`; and the reversed bounds `(1, 0, 0, 7)` (within `[0,7]` but
`start_row > end_row`) raise nothing and return the empty, truncated sample
set `[]`. -/
theorem np_extract_bounds_bug :
    np_extract zeroFrame8 8 0 8 0 = Except.error ExtractErr.indexError ∧
    np_extract zeroFrame8 1 0 0 7 = Except.ok [] :=
  ⟨rfl, rfl⟩

/-- The length of a Python inclusive integer range. -/
theorem intRange_length (lo hi : Int) :
    (intRange lo hi).length = (hi + 1 - lo).toNat := by
  unfold intRange
  rw [List.length_map, List.length_range]

/-- Indexing a Python inclusive integer range. -/
theorem intRange_getElem? (lo hi : Int) (i : Nat) (h : i < (hi + 1 - lo).toNat) :
    (intRange lo hi)[i]? = some (lo + i) := by
  unfold intRange
  rw [List.getElem?_map, List.getElem?_range h]
  rfl

/-- Members of a Python inclusive integer range lie between the bounds. -/
theorem mem_intRange {lo hi x : Int} (h : x ∈ intRange lo hi) :
    lo ≤ x ∧ x ≤ hi := by
  simp only [intRange, List.mem_map, List.mem_range] at h
  obtain ⟨i, hi', rfl⟩ := h
  omega

/-- A loop whose body never raises collects all its results in order. -/
theorem exceptSeq_ok {ε α β : Type} (f : α → Except ε β) (g : α → β) :
    ∀ (l : List α), (∀ x ∈ l, f x = Except.ok (g x)) →
      exceptSeq f l = Except.ok (l.map g)
  | [], _ => rfl
  | x :: xs, h => by
    have hx := h x (List.mem_cons_self x xs)
    have hxs := exceptSeq_ok f g xs (fun y hy => h y (List.mem_cons_of_mem _ hy))
    simp [exceptSeq, hx, hxs]

/-- An in-range subscript returns the frame cell. -/
theorem getCellE_ok (arr : List (List Int)) (r c : Int)
    (hr : r.toNat < arr.length) (hc : c.toNat < (arr.getD r.toNat []).length) :
    getCellE arr r c = Except.ok (cell arr r c) := by
  have h1 : arr[r.toNat]? = some arr[r.toNat] := List.getElem?_eq_getElem hr
  have hc2 : c.toNat < arr[r.toNat].length := by
    rwa [List.getD_eq_getElem arr [] hr] at hc
  have h2 : arr[r.toNat][c.toNat]? = some arr[r.toNat][c.toNat] :=
    List.getElem?_eq_getElem hc2
  simp only [getCellE, cell, h1, h2, List.getD_eq_getElem arr [] hr,
    List.getD_eq_getElem _ 0 hc2]

/-- C3: for every 8x8 frame and bounds with
`0 ≤ start_row ≤ end_row ≤ 7` and `0 ≤ start_col ≤ end_col ≤ 7`,
`np_extract` succeeds and returns the row-major sub-grid: exactly
`(end_row - start_row + 1) × (end_col - start_col + 1)` samples, the
sample at relative position `(i, j)` being the frame cell at
`(start_row + i, start_col + j)`. -/
theorem np_extract_in_bounds (arr : List (List Int)) (sr sc er ec : Int)
    (hrows : arr.length = 8) (hcols : ∀ row ∈ arr, row.length = 8)
    (h1 : 0 ≤ sr) (h2 : sr ≤ er) (h3 : er ≤ 7)
    (h4 : 0 ≤ sc) (h5 : sc ≤ ec) (h6 : ec ≤ 7) :
    np_extract arr sr sc er ec = Except.ok (subgrid arr sr sc er ec) ∧
    (subgrid arr sr sc er ec).length = (er - sr + 1).toNat ∧
    (∀ row ∈ subgrid arr sr sc er ec, row.length = (ec - sc + 1).toNat) ∧
    (∀ i j : Nat, i < (er - sr + 1).toNat → j < (ec - sc + 1).toNat →
      ((subgrid arr sr sc er ec)[i]?.getD [])[j]? =
        some (cell arr (sr + i) (sc + j))) := by
  have hhead : arr.headI.length = 8 := by
    cases arr with
    | nil => simp at hrows
    | cons a as => exact hcols a (List.mem_cons_self a as)
  have hvalid : 0 ≤ sr ∧ 0 ≤ sc ∧
      sr ≤ (arr.length : Int) ∧ sc ≤ (arr.headI.length : Int) ∧
      0 ≤ er ∧ 0 ≤ ec ∧
      er ≤ (arr.length : Int) ∧ ec ≤ (arr.headI.length : Int) := by
    rw [hrows, hhead]
    refine ⟨h1, h4, by omega, by omega, by omega, by omega, by omega, by omega⟩
  have hcell : ∀ r : Int, sr ≤ r → r ≤ er → ∀ c : Int, sc ≤ c → c ≤ ec →
      getCellE arr r c = Except.ok (cell arr r c) := by
    intro r hr1 hr2 c hc1 hc2
    have hrlt : r.toNat < arr.length := by omega
    have hrowmem : arr.getD r.toNat [] ∈ arr := by
      rw [List.getD_eq_getElem arr [] hrlt]
      exact List.getElem_mem hrlt
    have hrowlen : (arr.getD r.toNat []).length = 8 := hcols _ hrowmem
    have hclt : c.toNat < (arr.getD r.toNat []).length := by omega
    exact getCellE_ok arr r c hrlt hclt
  refine ⟨?_, ?_, ?_, ?_⟩
  · unfold np_extract subgrid
    rw [if_pos hvalid]
    apply exceptSeq_ok
    intro r hrmem
    obtain ⟨hr1, hr2⟩ := mem_intRange hrmem
    apply exceptSeq_ok
    intro c hcmem
    obtain ⟨hc1, hc2⟩ := mem_intRange hcmem
    exact hcell r hr1 hr2 c hc1 hc2
  · simp only [subgrid, List.length_map, intRange_length]
    omega
  · intro row hrow
    simp only [subgrid, List.mem_map] at hrow
    obtain ⟨r, _, rfl⟩ := hrow
    simp only [List.length_map, intRange_length]
    omega
  · intro i j hi hj
    have hi' : i < (er + 1 - sr).toNat := by omega
    have hj' : j < (ec + 1 - sc).toNat := by omega
    simp only [subgrid]
    rw [List.getElem?_map, intRange_getElem? sr er i hi', Option.map_some',
      Option.getD_some, List.getElem?_map, intRange_getElem? sc ec j hj',
      Option.map_some']

/-- Witness for C3: the CENTER zone bounds `(2, 2, 5, 5)` on a frame with
pairwise distinct cells. -/
theorem np_extract_in_bounds_witness :
    testFrame8.length = 8 ∧ (∀ row ∈ testFrame8, row.length = 8) ∧
    (0 : Int) ≤ 2 ∧ (2 : Int) ≤ 5 ∧ (5 : Int) ≤ 7 ∧
    (0 : Int) ≤ 2 ∧ (2 : Int) ≤ 5 ∧ (5 : Int) ≤ 7 ∧
    np_extract testFrame8 2 2 5 5 = Except.ok (subgrid testFrame8 2 2 5 5) :=
  ⟨by decide, by decide, by decide, by decide, by decide, by decide, by decide, by decide,
    (np_extract_in_bounds testFrame8 2 2 5 5 (by decide) (by decide) (by decide)
      (by decide) (by decide) (by decide) (by decide) (by decide)).1⟩

/-- Truncation toward zero of an integer-valued rational is the integer. -/
theorem int_trunc_intCast (v : Int) : int_trunc ((v : ℚ)) = v := by
  unfold int_trunc
  rw [Rat.num_intCast, Rat.den_intCast]
  exact Int.tdiv_one v

/-- C8: for every non-empty sample set, the zone average
`int(np.average(_mm))` is the arithmetic mean truncated toward zero: a
uniform sample set of integer value `v` averages to `v`, and the sample
set `[[0, 10]]` averages to `5`. -/
theorem np_average_uniform_and_pair (v : Int) (mm : List (List Int))
    (hne : mm.flatten ≠ []) (huni : ∀ x ∈ mm.flatten, x = v) :
    np_average_int mm = v ∧ np_average_int [[0, 10]] = 5 := by
  constructor
  · have hrep : mm.flatten = List.replicate mm.flatten.length v :=
      List.eq_replicate_iff.mpr ⟨rfl, huni⟩
    have hlen0 : mm.flatten.length ≠ 0 :=
      fun h => hne (List.length_eq_zero.mp h)
    have hsum : mm.flatten.sum = v * (mm.flatten.length : Int) := by
      conv_lhs => rw [hrep]
      rw [List.sum_replicate]
      simp [nsmul_eq_mul, mul_comm]
    have hcast : ((mm.flatten.length : ℚ)) ≠ 0 := Nat.cast_ne_zero.mpr hlen0
    have havg : np_average mm = (v : ℚ) := by
      unfold np_average
      rw [hsum]
      push_cast
      rw [mul_div_assoc, div_self hcast, mul_one]
    unfold np_average_int
    rw [havg, int_trunc_intCast]
  · have h2 : np_average [[0, 10]] = ((5 : Int) : ℚ) := by
      unfold np_average
      norm_num
    unfold np_average_int
    rw [h2, int_trunc_intCast]

/-- Witness for C8 on the uniform sample set `[[42, 42], [42]]`. -/
theorem np_average_uniform_and_pair_witness :
    [[(42 : Int), 42], [42]].flatten ≠ [] ∧
    (∀ x ∈ [[(42 : Int), 42], [42]].flatten, x = 42) ∧
    (np_average_int [[42, 42], [42]] = 42 ∧ np_average_int [[0, 10]] = 5) :=
  ⟨by decide, by decide, np_average_uniform_and_pair 42 _ (by decide) (by decide)⟩

/-- When every sensor reading is invalid (negative), the retry loop runs
its full budget and terminates with a `NameError` from the misspelled
`blink_underlighting` call — emitting no light event at all, and never
reaching the `raise ValueError`. -/
theorem retry_go_exhausts (readings : Nat → ℚ) (hneg : ∀ n, readings n < 0) :
    ∀ (left counter : Nat) (d : ℚ), d < 0 → counter + left = 10 → 1 ≤ left →
      retry_go readings d counter left = ([], Except.error PyErr.nameError) := by
  intro left
  induction left with
  | zero =>
    intro counter d _ _ hle
    omega
  | succ k ih =>
    intro counter d hd hsum _
    simp only [retry_go]
    rw [if_pos ⟨hd, by omega⟩]
    by_cases hc : counter + 1 ≥ 10
    · rw [if_pos hc]
      rfl
    · rw [if_neg hc]
      exact ih (counter + 1) (readings counter) (hneg counter) (by omega) (by omega)

/-- C6 (evaluation of the buggy behavior): a run in which every
`read_distance` call returns `-1.0` exhausts the 10-attempt budget; the
code then raises `NameError` (the call site names `blink_underlighting`,
but the module defines `blink_underlights`), so no red blink is emitted
and the `ValueError` is never raised. -/
theorem retry_exhaustion_name_error :
    inner_retry (fun _ => (-1 : ℚ)) = ([], Except.error PyErr.nameError) :=
  retry_go_exhausts (fun _ => (-1 : ℚ)) (fun _ => by norm_num) 10 0 (-1)
    (by norm_num) rfl (by norm_num)

/-- The turn-decision chain never reaches its dead final arm: `percent < 50`
and `percent >= 50` are exhaustive. -/
theorem turn_decision_not_backup (l r t p : ℚ) :
    turn_decision l r t p ≠ ReactAction.Backup := by
  unfold turn_decision
  split_ifs with h1 h2 h3 h4
  · exact fun h => ReactAction.noConfusion h
  · exact fun h => ReactAction.noConfusion h
  · exact fun h => ReactAction.noConfusion h
  · exact fun h => ReactAction.noConfusion h
  · exact absurd (not_lt.mp h3) h4

/-- Counting the reverse pulses of one v072 `backup()` call. -/
theorem countP_backup_pulses :
    (List.flatten (List.replicate DEFAULT_BACKUP_LOOPS
      [Ev.rearBlink, Ev.motorCmd (-TURN_SPEED) (-TURN_SPEED)])).countP
        is_reverse_cmd = DEFAULT_BACKUP_LOOPS := by
  simp [DEFAULT_BACKUP_LOOPS, List.replicate, is_reverse_cmd,
    List.countP, List.countP.go]

/-- Counting the reverse pulses of the v060 backup loop. -/
theorem countP_v060_backup_pulses :
    v060_backup_pulses.countP v060_is_reverse_cmd = BACKUP_LOOPS := by
  simp [v060_backup_pulses, BACKUP_LOOPS, List.replicate, v060_is_reverse_cmd,
    List.countP, List.countP.go]

/-- C9 (amended): on the first collision, one reaction iteration runs the
backup maneuver exactly once before the first turn decision and proceeds to
the turn without re-checking collision in between; with the drive enabled
the v072 `backup()` issues exactly `DEFAULT_BACKUP_LOOPS` reverse pulses,
each paired with a rear blink, while with `DRIVE_ON = False` (the shipped
v072 value) it issues none; the v060 backup loop issues exactly
`BACKUP_LOOPS` such pulses unconditionally. -/
theorem backup_before_first_turn (l r p : ℚ) :
    before_first_turn (react_iteration true l r p) =
      List.flatten (List.replicate DEFAULT_BACKUP_LOOPS
        [Ev.rearBlink, Ev.motorCmd (-TURN_SPEED) (-TURN_SPEED)]) ∧
    (before_first_turn (react_iteration true l r p)).countP is_reverse_cmd =
      DEFAULT_BACKUP_LOOPS ∧
    Ev.collisionCheck ∉ before_first_turn (react_iteration true l r p) ∧
    before_first_turn (react_iteration false l r p) = [] ∧
    (before_first_turn (v060_react_trace p)).countP v060_is_reverse_cmd =
      BACKUP_LOOPS ∧
    Ev.collisionCheck ∉ before_first_turn (v060_react_trace p) := by
  have hnb := turn_decision_not_backup l r TURN_TOLERANCE_MM p
  have h72 : before_first_turn (react_iteration true l r p) =
      List.flatten (List.replicate DEFAULT_BACKUP_LOOPS
        [Ev.rearBlink, Ev.motorCmd (-TURN_SPEED) (-TURN_SPEED)]) := by
    rcases hturn : turn_decision l r TURN_TOLERANCE_MM p with _ | _ | _
    · simp only [react_iteration, hturn]
      rfl
    · simp only [react_iteration, hturn]
      rfl
    · exact absurd hturn hnb
  have hoff : before_first_turn (react_iteration false l r p) = [] := by
    rcases hturn : turn_decision l r TURN_TOLERANCE_MM p with _ | _ | _
    · simp only [react_iteration, hturn]
      rfl
    · simp only [react_iteration, hturn]
      rfl
    · exact absurd hturn hnb
  have h60 : before_first_turn (v060_react_trace p) = v060_backup_pulses := by
    by_cases hp : p < v060_TURN_RIGHT_PERCENT
    · simp only [v060_react_trace, if_pos hp]
      rfl
    · simp only [v060_react_trace, if_neg hp]
      rfl
  refine ⟨h72, ?_, ?_, hoff, ?_, ?_⟩
  · rw [h72]
    exact countP_backup_pulses
  · rw [h72]
    simp [DEFAULT_BACKUP_LOOPS, List.replicate]
  · rw [h60]
    exact countP_v060_backup_pulses
  · rw [h60]
    simp [v060_backup_pulses, BACKUP_LOOPS, List.replicate]

/-- C9 counterexample: with the shipped configuration `DRIVE_ON = False`,
the reaction iteration at averages 50/50 and random value 30 issues zero
reverse motor commands before the first turn decision, not the configured
`DEFAULT_BACKUP_LOOPS = 5`. -/
theorem backup_pulses_counterexample :
    (before_first_turn (react_iteration DRIVE_ON 50 50 30)).countP
      is_reverse_cmd ≠ DEFAULT_BACKUP_LOOPS := by
  have hdec : turn_decision 50 50 TURN_TOLERANCE_MM 30 = ReactAction.TurnRight := by
    norm_num [turn_decision, TURN_TOLERANCE_MM]
  simp only [DRIVE_ON, react_iteration, hdec]
  decide

end Trilobot

